import Mathlib

/-!
# Verification of `cube-builder-aws` (`cube_builder_aws/business.py`)

Shallow embedding of the `CubeBusiness` operations of
`src/cube-builder-aws/cube_builder_aws/business.py`, together with proofs about
the behaviour of the status endpoint, cube creation, process start and the
stream dispatcher.

Python strings are modelled as `List Char` (`PyStr`); databases and the
activity ledger are modelled as explicit values passed to each operation;
Python exceptions (uncaught `IndexError` / `UnboundLocalError`) are modelled
with `Option` / `Except` results.
-/

/-- Python strings, modelled as lists of characters. -/
abbrev PyStr := List Char

/-- Convenience: build a `PyStr` from a Lean string literal. -/
def pystr (s : String) : PyStr := s.toList

/-- Python `s.split('_')`: split a string at every underscore.  Matches CPython
semantics: `''.split('_') = ['']`, `'_'.split('_') = ['', '']`. -/
def split_underscore : PyStr → List PyStr
  | [] => [[]]
  | c :: rest =>
    let r := split_underscore rest
    if c = '_' then [] :: r
    else
      match r with
      | [] => [[c]]
      | h :: t => (c :: h) :: t

/-- Python `'_'.join(parts)`. -/
def join_underscore : List PyStr → PyStr
  | [] => []
  | [p] => p
  | p :: q :: rest => p ++ '_' :: join_underscore (q :: rest)

theorem split_underscore_ne_nil (s : PyStr) : split_underscore s ≠ [] := by
  cases s with
  | nil => simp [split_underscore]
  | cons c rest =>
    simp only [split_underscore]
    split
    · simp
    · match h : split_underscore rest with
      | [] => simp
      | h' :: t => simp

/-- Joining with `'_'` undoes splitting on `'_'`. -/
theorem join_split_underscore (s : PyStr) :
    join_underscore (split_underscore s) = s := by
  induction s with
  | nil => rfl
  | cons c rest ih =>
    simp only [split_underscore]
    by_cases hc : c = '_'
    · subst hc
      simp only [if_pos rfl]
      match h : split_underscore rest with
      | [] => exact absurd h (split_underscore_ne_nil rest)
      | h' :: t =>
        rw [h] at ih
        simpa [join_underscore] using ih
    · simp only [if_neg hc]
      match h : split_underscore rest with
      | [] => exact absurd h (split_underscore_ne_nil rest)
      | h' :: t =>
        rw [h] at ih
        cases t with
        | nil => simpa [join_underscore] using ih
        | cons t0 ts => simpa [join_underscore] using ih

/-- Python `s.upper()` (the names handled here are ASCII). -/
def upperChars (s : PyStr) : PyStr := s.map Char.toUpper

/-- Python `s.strip()`: drop leading and trailing whitespace. -/
def pyStrip (s : PyStr) : PyStr :=
  ((s.dropWhile Char.isWhitespace).reverse.dropWhile Char.isWhitespace).reverse

/-- Python `str(n)` for a natural number. -/
def natPyStr (n : Nat) : PyStr := (toString n).toList

/-- Modelled from the spec: `get_cube_parts` (defined in the repository's
`utils/builder.py`, which is not under `src/`) splits a cube id into its
underscore-separated segments — the spec's canonical forms are
`<name>_<resolution>` and `<name>_<resolution>_<step><unit>_<function>`. -/
def get_cube_parts (datacube : PyStr) : List PyStr := split_underscore datacube

/-- Modelled from the spec: `get_cube_id` (defined in the repository's
`utils/builder.py`, which is not under `src/`).  Per the spec's cube-identity
rules, with no composite function (or `IDENTITY`) it returns the irregular
cube id — the first two underscore-separated segments — and otherwise appends
`_<function>` to the requested name. -/
def get_cube_id (datacube : PyStr) (func : Option PyStr) : PyStr :=
  match func with
  | none => join_underscore ((split_underscore datacube).take 2)
  | some f =>
    if upperChars f = pystr "IDENTITY" then
      join_underscore ((split_underscore datacube).take 2)
    else
      datacube ++ '_' :: f

/-- `business.py:131` (`get_cube_status`): the irregular-cube id is
`'_'.join(get_cube_parts(datacube)[:2])`. -/
def irregular_cube_of (datacube : PyStr) : PyStr :=
  join_underscore ((get_cube_parts datacube).take 2)

/-- `business.py:702` (`get_cube_meta`): the identity-cube id is
`'_'.join(cube.id.split('_')[:2])`. -/
def identity_cube_of (cubeId : PyStr) : PyStr :=
  join_underscore ((split_underscore cubeId).take 2)

/-- `business.py:580-588` (`list_merges`): the cube name used for the merge
lookup drops the composite function (and temporal step) from the data cube
name; ids with two segments pass through unchanged. -/
def list_merges_data_cube (dataCube : PyStr) : PyStr :=
  let parts := get_cube_parts dataCube
  if parts.length = 4 then join_underscore parts.dropLast.dropLast
  else if parts.length = 3 then join_underscore parts.dropLast
  else dataCube

/-! ## The activity ledger and `get_cube_status` (`business.py:126-212`) -/

/-- One activity record as returned by
`services.get_activities_by_datacube`.  `get_date` (from the missing
`utils/builder.py`) parses the stored timestamp; timestamps are modelled
directly as seconds. -/
structure Activity where
  mystatus : PyStr
  mylaunch : Nat
  myend : Nat
deriving Repr, DecidableEq

/-- The response of `get_cube_status`: either the unfinished dictionary
`{finished: False, done, not_done, error}` or the finished dictionary
`{finished: True, start_date, last_date, done, duration, collection_item}`. -/
inductive StatusResult where
  | unfinished (done notDone error : Nat)
  | finished (startDate lastDate : Nat) (done : Nat) (duration : String)
      (collectionItem : Nat)
deriving Repr, DecidableEq

/-- The services consulted by `get_cube_status`: the DynamoDB activity ledger
(`get_activities_by_datacube`) and the `CollectionItem` row count. -/
structure LedgerView where
  activities : PyStr → List Activity
  collectionItems : PyStr → Nat

/-- Python `(a - b).seconds` on datetimes `a`, `b` given as epoch seconds:
the seconds-within-day component of the difference, always in `[0, 86400)`
(floor modulus, also on negative differences). -/
def td_seconds (a b : Nat) : Int := ((a : Int) - (b : Int)).emod 86400

/-- The inner loop of the duration accumulation (`business.py:173-193`):
fold over the previously collected `(start, end)` pairs, updating
`time_by_act` through the four `if`/`elif` branches; `i` is the 1-based
index of the prior interval. -/
def timeByAct (s e : Nat) : List (Nat × Nat) → Nat → Int → Int
  | [], _, tba => tba
  | d :: rest, i, tba =>
    let i' := i + 1
    let tba' :=
      if d.1 < s ∧ s < d.2 then
        let v := td_seconds e d.2
        if 0 < v ∧ v < tba then v else tba
      else if d.1 < e ∧ e < d.2 then
        let v := td_seconds d.1 s
        if 0 < v ∧ v < tba then v else tba
      else if s > d.2 ∨ e < d.1 then
        let v := td_seconds e s
        if v < tba ∨ i' = 1 then v else tba
      else if s < d.1 ∨ e > d.2 then 0
      else tba
    timeByAct s e rest i' tba'

/-- The outer loop of the duration accumulation (`business.py:163-196`):
walk the sorted activities, add each activity's `time_by_act` contribution
(the first activity contributes its full duration) and collect its interval
into `list_dates`. -/
def timeLoop : List Activity → Int → List (Nat × Nat) → Int
  | [], time, _ => time
  | a :: rest, time, dates =>
    if dates.isEmpty then
      timeLoop rest (time + td_seconds a.myend a.mylaunch)
        (dates ++ [(a.mylaunch, a.myend)])
    else
      timeLoop rest (time + timeByAct a.mylaunch a.myend dates 0 0)
        (dates ++ [(a.mylaunch, a.myend)])

/-- The reported `time` for a list of activities already sorted by launch. -/
def status_time (acts : List Activity) : Int := timeLoop acts 0 []

/-- Insert an activity into a list that is sorted by `mylaunch` descending,
keeping ties in their original order. -/
def insertDesc : List Activity → Activity → List Activity
  | [], a => [a]
  | b :: bs, a =>
    if a.mylaunch ≤ b.mylaunch then b :: insertDesc bs a else a :: b :: bs

/-- Python `sorted(activities, key=lambda i: i['mylaunch'], reverse=True)`:
a stable descending sort by launch timestamp. -/
def sortByLaunchDesc (l : List Activity) : List Activity := l.foldl insertDesc []

/-- Python `'{} h {} m {} s'.format(int(time/60/60), int(time/60), time % 60)`
on the non-negative accumulated time. -/
def duration_str (time : Int) : String :=
  let t := time.toNat
  toString (t / 60 / 60) ++ " h " ++ toString (t / 60) ++ " m " ++
    toString (t % 60) ++ " s"

/-- The combined activity list consulted by `get_cube_status`
(`business.py:139-147`): the irregular cube's activities, plus — when the
requested name has more than two segments — the composite cube's activities
(looked up under the first three segments). -/
def status_acts (svc : LedgerView) (datacube : PyStr) : List Activity :=
  let parts := get_cube_parts datacube
  let actsDatacube :=
    if parts.length > 2 then svc.activities (join_underscore (parts.take 3))
    else []
  svc.activities (irregular_cube_of datacube) ++ actsDatacube

/-- Count the activities carrying a given `mystatus`. -/
def countStatus (acts : List Activity) (st : PyStr) : Nat :=
  (acts.filter (fun a => a.mystatus == st)).length

/-- `CubeBusiness.get_cube_status` (`business.py:126-212`).  Returns `none`
when the Python code raises an uncaught `IndexError` (`acts[-1]` on an empty
activity list). -/
def get_cube_status (svc : LedgerView) (datacube : PyStr) :
    Option StatusResult :=
  let datacube_request := datacube
  let parts := get_cube_parts datacube
  let irregular := irregular_cube_of datacube
  let isIrregular := parts.length > 2
  let cube := if isIrregular then join_underscore (parts.take 3) else irregular
  let actsDatacube := if isIrregular then svc.activities cube else []
  let notDoneDatacube := countStatus actsDatacube (pystr "NOTDONE")
  let errorDatacube := countStatus actsDatacube (pystr "ERROR")
  let actsIrregular := svc.activities irregular
  let notDoneIrregular := countStatus actsIrregular (pystr "NOTDONE")
  let errorIrregular := countStatus actsIrregular (pystr "ERROR")
  let activities := actsIrregular ++ actsDatacube
  let errors := errorIrregular + errorDatacube
  let notDone := notDoneIrregular + notDoneDatacube
  if notDone + errors ≠ 0 then
    some (.unfinished (activities.length - (notDone + errors)) notDone errors)
  else
    let acts := sortByLaunchDesc activities
    match acts.getLast?, acts.head? with
    | some lastAct, some firstAct =>
      some (.finished lastAct.mylaunch firstAct.myend activities.length
        (duration_str (status_time acts))
        (svc.collectionItems datacube_request))
    | _, _ => none

/-! ## `create_cube` (`business.py:47-124`) -/

/-- One entry of `params['indices']`: a dictionary with `name`, `dtype` and
`common_name`. -/
structure Indice where
  name : PyStr
  dtype : PyStr
  common_name : PyStr
deriving Repr, DecidableEq

/-- The request parameters of `create_cube`. -/
structure CreateParams where
  datacube : PyStr
  composite_function : List PyStr
  grs : PyStr
  resolution : Nat
  temporal_schema : PyStr
  description : PyStr
  license : PyStr
  oauth_scope : Option PyStr
  bands_quicklook : List PyStr
  bands : List PyStr
  indices : List Indice
deriving Repr, DecidableEq

/-- A `Collection` row as constructed by `create_cube` (the fields that
the code sets; constant `None` fields are omitted). -/
structure CollectionRow where
  id : PyStr
  temporal_composition_schema_id : PyStr
  raster_size_schema_id : PyStr
  composite_function_schema_id : PyStr
  grs_schema_id : PyStr
  bands_quicklook : PyStr
deriving Repr, DecidableEq

/-- A `Band` row as constructed by `create_cube` and queried by
`start_process`.  The float-valued `scale` column (`0.0001` / `1`) is not
modelled; every other column set by the code is. -/
structure BandRow where
  name : PyStr
  collection_id : PyStr
  band_min : Int
  band_max : Int
  fill : Int
  data_type : PyStr
  common_name : PyStr
  resolution_x : Nat
  resolution_y : Nat
deriving Repr, DecidableEq

/-- Python `','.join(parts)`. -/
def join_comma : List PyStr → PyStr
  | [] => []
  | [p] => p
  | p :: q :: rest => p ++ ',' :: join_comma (q :: rest)

/-- The `Band(...)` constructor call shared by both loops of `create_cube`
(`business.py:84-98` and `107-121`): every column is derived from the
dictionary bound to `indice`, never from the `band` loop variable. -/
def bandRowFromIndice (ind : Indice) (collectionId : PyStr)
    (resolution : Nat) : BandRow where
  name := ind.name
  collection_id := collectionId
  band_min := if ind.dtype == pystr "int16" then 0 else 0
  band_max := if ind.dtype == pystr "int16" then 10000 else 255
  fill := if ind.dtype == pystr "int16" then -9999 else 0
  data_type := ind.dtype
  common_name := ind.common_name
  resolution_x := resolution
  resolution_y := resolution

/-- One iteration of the first loop of `create_cube` (`business.py:52-75`):
add a new `Collection` for one composite function unless its id is already
among the new cubes or in the database; an `IDENTITY` cube is bound to the
sentinel temporal schema `'Anull'`, every other cube to the requested
schema. -/
def build_cubes_step (cubesDb : List CollectionRow) (params : CreateParams)
    (cubes : List CollectionRow) (cf : PyStr) : List CollectionRow :=
  let cFunctionId := upperChars cf
  let rasterSizeId := params.grs ++ '-' :: natPyStr params.resolution
  let cubeId := get_cube_id params.datacube (some cFunctionId)
  if (cubes.filter (fun x => x.id == cubeId)).isEmpty ∧
      (cubesDb.filter (fun x => x.id == cubeId)).isEmpty then
    cubes ++ [{
      id := cubeId
      temporal_composition_schema_id :=
        if upperChars cFunctionId ≠ pystr "IDENTITY" then
          params.temporal_schema
        else pystr "Anull"
      raster_size_schema_id := rasterSizeId
      composite_function_schema_id := cFunctionId
      grs_schema_id := params.grs
      bands_quicklook := join_comma params.bands_quicklook }]
  else cubes

/-- The first loop of `create_cube` (`business.py:52-75`). -/
def build_cubes (cubesDb : List CollectionRow) (params : CreateParams) :
    List CollectionRow :=
  params.composite_function.foldl (build_cubes_step cubesDb params) []

/-- The Python error raised by `create_cube`'s bands loop: the name `indice`
is read before any assignment (`business.py:85`). -/
inductive PyError where
  | unboundLocal (name : String)
deriving Repr, DecidableEq

/-- The `for band in params['bands']` loop of one cube
(`business.py:81-98`): each iteration strips the loop variable, then builds
a `Band` row from whatever dictionary is currently bound to `indice` — on
the first cube that name is unbound and Python raises. -/
def bands_loop (cubeId : PyStr) (resolution : Nat) (indiceState : Option Indice) :
    List PyStr → Except PyError (List BandRow)
  | [] => .ok []
  | b :: rest =>
    let _band := pyStrip b
    match indiceState with
    | none => .error (.unboundLocal "indice")
    | some ind => do
      let tail ← bands_loop cubeId resolution indiceState rest
      .ok (bandRowFromIndice ind cubeId resolution :: tail)

/-- The `for indice in params['indices']` loop of one cube
(`business.py:100-121`): strip the index name, skip `CLEAROB`/`TOTALOB` for
an `IDENTITY` cube, otherwise append the band row; returns the created rows
together with the final binding of `indice`. -/
def indices_loop (cube : CollectionRow) (resolution : Nat) :
    List Indice → Option Indice → List BandRow × Option Indice
  | [], st => ([], st)
  | ind :: rest, _st =>
    let ind' : Indice := { ind with name := pyStrip ind.name }
    if cube.composite_function_schema_id == pystr "IDENTITY" ∧
        (ind'.name == pystr "CLEAROB" ∨ ind'.name == pystr "TOTALOB") then
      indices_loop cube resolution rest (some ind')
    else
      let res := indices_loop cube resolution rest (some ind')
      (bandRowFromIndice ind' cube.id resolution :: res.1, res.2)

/-- The `for cube in cubes` loop of `create_cube` (`business.py:79-121`):
for each new cube run the bands loop then the indices loop, threading the
binding of the name `indice` across cubes (it starts unbound). -/
def all_bands_loop (params : CreateParams) :
    List CollectionRow → Option Indice → Except PyError (List BandRow)
  | [], _ => .ok []
  | cube :: rest, st => do
    let fromBands ← bands_loop cube.id params.resolution st params.bands
    let fromIndices := indices_loop cube params.resolution params.indices st
    let tail ← all_bands_loop params rest fromIndices.2
    .ok (fromBands ++ fromIndices.1 ++ tail)

/-- `CubeBusiness.create_cube` (`business.py:47-124`).  The new `Collection`
rows are saved (`BaseModel.save_all(cubes)`, line 76) before the band loops
run, so they are returned even when the band construction raises; the `Band`
rows are saved only when no exception occurs (`Except.ok`). -/
def create_cube (cubesDb : List CollectionRow) (params : CreateParams) :
    List CollectionRow × Except PyError (List BandRow) :=
  let cubes := build_cubes cubesDb params
  (cubes, all_bands_loop params cubes none)

/-! ## `start_process` (`business.py:214-254`) -/

/-- A calendar date (the code's `'%Y-%m-%d'` strings; `strptime` followed by
`strftime` on a valid date string is the identity, so dates are modelled
structurally). -/
structure DateYMD where
  year : Nat
  month : Nat
  day : Nat
deriving Repr, DecidableEq

/-- Lexicographic (chronological) strict order on dates. -/
def DateYMD.lt (a b : DateYMD) : Prop :=
  a.year < b.year ∨ (a.year = b.year ∧
    (a.month < b.month ∨ (a.month = b.month ∧ a.day < b.day)))

instance (a b : DateYMD) : Decidable (DateYMD.lt a b) := by
  unfold DateYMD.lt; infer_instance

/-- The request parameters of `start_process`. -/
structure StartParams where
  datacube : PyStr
  tiles : List PyStr
  collections : PyStr
  satellite : PyStr
  start_date : DateYMD
  end_date : Option DateYMD
  force : Option Bool
deriving Repr, DecidableEq

/-- The database state consulted by `start_process`: the `Collection` table
and the `Band` table. -/
structure StartDb where
  collections : List CollectionRow
  bands : List BandRow
deriving Repr, DecidableEq

/-- What `start_process` did: its HTTP response (`none` models the uncaught
`IndexError` on `bands[0]` when the identity cube has no bands), whether
`orchestrate` was invoked, and the `bands_list` handed to `prepare_merge`
(both from the missing `maestro.py`, modelled as opaque effects). -/
structure StartOutcome where
  response : Option (String × Nat)
  orchestrated : Bool
  merge_bands : Option (List PyStr)
deriving Repr, DecidableEq

/-- `business.py:233`: the hard-coded derived-band names
`['NDVI', 'EVI', 'CLEAROB', 'TOTALOB']`. -/
def indices_list : List PyStr :=
  [pystr "NDVI", pystr "EVI", pystr "CLEAROB", pystr "TOTALOB"]

/-- The bands-list loop of `start_process` (`business.py:239-242`): keep the
name of every band whose upper-cased name is not in `indices_list`. -/
def bands_list_of (bands : List BandRow) : List PyStr :=
  bands.foldl (fun acc b =>
    if upperChars b.name ∈ indices_list then acc else acc ++ [b.name]) []

/-- `CubeBusiness.start_process` (`business.py:214-254`).  The date strings
are parsed unconditionally (no ordering check); the cube is looked up under
`get_cube_id(datacube, 'STK')`; on a missing cube the request stops with
`('Cube not found!', 404)`; otherwise `orchestrate` runs, and `prepare_merge`
is reached only when the identity cube has at least one band row (the
argument list evaluates `bands[0]`). -/
def start_process (db : StartDb) (today : DateYMD) (params : StartParams) :
    StartOutcome :=
  let cubeId := get_cube_id params.datacube (some (pystr "STK"))
  let _start_date := params.start_date
  let _end_date := params.end_date.getD today
  match db.collections.find? (fun c => c.id == cubeId) with
  | none => ⟨some ("Cube not found!", 404), false, none⟩
  | some _cubeInfos =>
    let bands := db.bands.filter
      (fun b => b.collection_id == get_cube_id params.datacube none)
    let bandsList := bands_list_of bands
    match bands with
    | [] => ⟨none, true, none⟩
    | _ :: _ => ⟨some ("Succesfully", 201), true, some bandsList⟩

/-! ## `continue_process_stream` (`business.py:256-278`) -/

/-- One stream payload: the optional `channel` key and the `action` value. -/
structure StreamParams where
  channel : Option PyStr
  action : PyStr
deriving Repr, DecidableEq

/-- The maestro handler invoked by the stream dispatcher. -/
inductive Handler where
  | solo
  | merge_warped
  | blend
  | publishItem
deriving Repr, DecidableEq

/-- `CubeBusiness.continue_process_stream` (`business.py:256-278`).  Returns
the handler invoked for the first payload (`none` inside the pair when no
branch matches) and the constant `statusCode` 200; `none` overall models the
`IndexError` on `params_list[0]` for an empty batch. -/
def continue_process_stream (paramsList : List StreamParams) :
    Option (Option Handler × Nat) :=
  match paramsList with
  | [] => none
  | p :: _ =>
    let handler :=
      if p.channel == some (pystr "kinesis") then some Handler.solo
      else if p.action == pystr "merge" then some Handler.merge_warped
      else if p.action == pystr "blend" then some Handler.blend
      else if p.action == pystr "publish" then some Handler.publishItem
      else none
    some (handler, 200)

/-! ## Spec-side definitions used to state the claims -/

/-- Spec-side (from claim C8's words): two activity intervals overlap when
they share a span of positive length. -/
def intervals_overlap (a b : Activity) : Prop :=
  max a.mylaunch b.mylaunch < min a.myend b.myend

instance (a b : Activity) : Decidable (intervals_overlap a b) := by
  unfold intervals_overlap; infer_instance

/-- Spec-side (from claim C8's words): the true union of busy time — the
number of seconds covered by at least one activity's interval. -/
def union_busy_seconds (acts : List Activity) : Nat :=
  let maxEnd := acts.foldl (fun m a => Nat.max m a.myend) 0
  ((List.range maxEnd).filter
    (fun t => acts.any (fun a => a.mylaunch ≤ t ∧ t < a.myend))).length

/-! ## Helper lemmas -/

theorem bands_list_foldl_acc (bands : List BandRow) (acc : List PyStr) :
    bands.foldl (fun acc b =>
        if upperChars b.name ∈ indices_list then acc else acc ++ [b.name]) acc
      = acc ++ bands_list_of bands := by
  induction bands generalizing acc with
  | nil => simp [bands_list_of]
  | cons b bs ih =>
    show List.foldl _ (if upperChars b.name ∈ indices_list then acc
      else acc ++ [b.name]) bs = _
    rw [ih]
    have hcons : bands_list_of (b :: bs) =
        (if upperChars b.name ∈ indices_list then ([] : List PyStr)
          else [] ++ [b.name]) ++ bands_list_of bs := ih _
    rw [hcons]
    by_cases hmem : upperChars b.name ∈ indices_list
    · simp [hmem]
    · simp [hmem]

theorem bands_list_of_eq_filter (bands : List BandRow) :
    bands_list_of bands =
      (bands.filter (fun b => decide (upperChars b.name ∉ indices_list))).map
        BandRow.name := by
  induction bands with
  | nil => rfl
  | cons b bs ih =>
    have hstep : bands_list_of (b :: bs) =
        (if upperChars b.name ∈ indices_list then ([] : List PyStr)
          else [] ++ [b.name]) ++ bands_list_of bs :=
      bands_list_foldl_acc bs _
    by_cases hmem : upperChars b.name ∈ indices_list
    · rw [hstep, if_pos hmem, List.nil_append, ih, List.filter_cons]
      simp [hmem]
    · rw [hstep, if_neg hmem, ih, List.filter_cons]
      simp [hmem]

/-- The `bands` local of `start_process` (`business.py:236-238`): the band
rows of the identity cube `get_cube_id(params['datacube'])`. -/
def queried_bands (db : StartDb) (params : StartParams) : List BandRow :=
  db.bands.filter (fun b => b.collection_id == get_cube_id params.datacube none)

theorem start_process_found (db : StartDb) (today : DateYMD)
    (params : StartParams) (c : CollectionRow)
    (hfind : db.collections.find?
      (fun x => x.id == get_cube_id params.datacube (some (pystr "STK"))) = some c)
    (hbands : queried_bands db params ≠ []) :
    start_process db today params =
      ⟨some ("Succesfully", 201), true, some (bands_list_of (queried_bands db params))⟩ := by
  simp only [start_process]
  rw [hfind]
  match hq : queried_bands db params with
  | [] => exact absurd hq hbands
  | b :: bs =>
    unfold queried_bands at hq
    simp only [hq]

theorem start_process_not_found (db : StartDb) (today : DateYMD)
    (params : StartParams)
    (hfind : db.collections.find?
      (fun x => x.id == get_cube_id params.datacube (some (pystr "STK"))) = none) :
    start_process db today params = ⟨some ("Cube not found!", 404), false, none⟩ := by
  simp only [start_process]
  rw [hfind]

/-! ## Concrete sample data for witnesses and counterexamples -/

/-- A composite cube row `mc_10_1M_STK`. -/
def wCube : CollectionRow :=
  ⟨pystr "mc_10_1M_STK", pystr "M1month", pystr "g-10", pystr "STK",
    pystr "g", pystr "B1"⟩

/-- An acquired band `B1` of the identity cube `mc_10`. -/
def wBandB1 : BandRow :=
  ⟨pystr "B1", pystr "mc_10", 0, 10000, -9999, pystr "int16", pystr "b1", 10, 10⟩

/-- A derived band `ndvi` of the identity cube `mc_10`. -/
def wBandNdvi : BandRow :=
  ⟨pystr "ndvi", pystr "mc_10", 0, 10000, -9999, pystr "int16", pystr "nd", 10, 10⟩

/-- A database holding the `mc_10_1M_STK` cube and two `mc_10` bands. -/
def wDb : StartDb := ⟨[wCube], [wBandB1, wBandNdvi]⟩

/-- The `datetime.now()` date used by the sample requests. -/
def wToday : DateYMD := ⟨2020, 7, 1⟩

/-- A well-formed build request for `mc_10_1M`. -/
def wParams : StartParams :=
  ⟨pystr "mc_10_1M", [pystr "003003"], pystr "c1", pystr "S2",
    ⟨2020, 6, 1⟩, some ⟨2020, 7, 1⟩, none⟩

/-- A build request whose start date (2020-06-02) is strictly after its end
date (2020-06-01). -/
def c2Params : StartParams :=
  ⟨pystr "mc_10_1M", [pystr "003003"], pystr "c1", pystr "S2",
    ⟨2020, 6, 2⟩, some ⟨2020, 6, 1⟩, none⟩

/-! ## Claim C6 -/

/-- Claim C6: the band list `start_process` passes to merge planning contains
exactly the cube's acquired bands — every band whose upper-cased name is one
of the derived names `NDVI`, `EVI`, `CLEAROB`, `TOTALOB` is excluded and no
other queried band is dropped. -/
theorem C6_start_process_band_list (db : StartDb) (today : DateYMD)
    (params : StartParams) (c : CollectionRow)
    (hfind : db.collections.find?
      (fun x => x.id == get_cube_id params.datacube (some (pystr "STK"))) = some c)
    (hbands : queried_bands db params ≠ []) :
    (start_process db today params).merge_bands =
      some (((queried_bands db params).filter
        (fun b => decide (upperChars b.name ∉ indices_list))).map BandRow.name) := by
  rw [start_process_found db today params c hfind hbands]
  simp [bands_list_of_eq_filter]

/-- Witness for C6: on the sample database the derived band `ndvi` is dropped
and the acquired band `B1` is kept. -/
theorem C6_witness :
    (start_process wDb wToday wParams).merge_bands = some [pystr "B1"] :=
  (C6_start_process_band_list wDb wToday wParams wCube (by decide)
    (by decide)).trans (by decide)

/-! ## Claim C7 -/

/-- Claim C7: `start_process` replies `('Cube not found!', 404)` and performs
no orchestration when the requested datacube (resolved through
`get_cube_id(datacube, 'STK')`) matches no collection row, and replies
`('Succesfully', 201)` when the cube exists (and the identity cube has at
least one band row, averting the `bands[0]` IndexError). -/
theorem C7_start_process_status (db : StartDb) (today : DateYMD)
    (params : StartParams) :
    (db.collections.find?
        (fun x => x.id == get_cube_id params.datacube (some (pystr "STK"))) = none →
      start_process db today params = ⟨some ("Cube not found!", 404), false, none⟩)
    ∧ (∀ c, db.collections.find?
        (fun x => x.id == get_cube_id params.datacube (some (pystr "STK"))) = some c →
      queried_bands db params ≠ [] →
      (start_process db today params).response = some ("Succesfully", 201)) := by
  constructor
  · exact start_process_not_found db today params
  · intro c hf hb
    rw [start_process_found db today params c hf hb]

/-- Witness for C7: an empty database yields the 404 outcome, the sample
database yields 201. -/
theorem C7_witness :
    start_process ⟨[], []⟩ wToday wParams =
      ⟨some ("Cube not found!", 404), false, none⟩ ∧
    (start_process wDb wToday wParams).response = some ("Succesfully", 201) :=
  ⟨(C7_start_process_status ⟨[], []⟩ wToday wParams).1 (by decide),
   (C7_start_process_status wDb wToday wParams).2 wCube (by decide) (by decide)⟩

/-! ## Claim C2 -/

/-- Counterexample to claim C2: a request whose start date (2020-06-02) is
strictly after its end date (2020-06-01) is not rejected — `start_process`
answers `('Succesfully', 201)` and orchestration runs. -/
theorem C2_counterexample :
    DateYMD.lt (c2Params.end_date.getD wToday) c2Params.start_date ∧
    start_process wDb wToday c2Params =
      ⟨some ("Succesfully", 201), true, some [pystr "B1"]⟩ := by
  decide

/-- Claim C2 as amended: `start_process` performs no date-range validation;
for every request with `start_date` strictly after `end_date` whose cube
exists (with at least one identity-cube band) it still replies
`('Succesfully', 201)` and orchestrates the reversed range. -/
theorem C2_no_date_validation (db : StartDb) (today : DateYMD)
    (params : StartParams) (c : CollectionRow)
    (hrev : DateYMD.lt (params.end_date.getD today) params.start_date)
    (hfind : db.collections.find?
      (fun x => x.id == get_cube_id params.datacube (some (pystr "STK"))) = some c)
    (hbands : queried_bands db params ≠ []) :
    (start_process db today params).response = some ("Succesfully", 201) ∧
    (start_process db today params).orchestrated = true := by
  rw [start_process_found db today params c hfind hbands]
  exact ⟨rfl, rfl⟩

/-- Witness for the amended C2 on the sample reversed-range request. -/
theorem C2_witness :
    (start_process wDb wToday c2Params).response = some ("Succesfully", 201) ∧
    (start_process wDb wToday c2Params).orchestrated = true :=
  C2_no_date_validation wDb wToday c2Params wCube (by decide) (by decide)
    (by decide)

/-! ## Claim C3 -/

/-- Counterexample to claim C3: a payload whose `action` is `"solo"` but
which does not carry `channel == "kinesis"` invokes no handler at all — in
particular it does not invoke the solo handler. -/
theorem C3_counterexample :
    continue_process_stream [⟨none, pystr "solo"⟩] = some (none, 200) ∧
    continue_process_stream [⟨none, pystr "solo"⟩] ≠
      some (some Handler.solo, 200) := by
  decide

/-- Claim C3 as amended: the dispatcher first checks the `channel` key — a
first payload with `channel == "kinesis"` goes to the solo handler regardless
of its action; otherwise the action selects merge/blend/publish, any other
action (including `"solo"`) invokes no handler, and the reply is always
statusCode 200. -/
theorem C3_dispatch (p : StreamParams) (rest : List StreamParams) :
    (p.channel = some (pystr "kinesis") →
      continue_process_stream (p :: rest) = some (some Handler.solo, 200))
    ∧ (p.channel ≠ some (pystr "kinesis") →
        (p.action = pystr "merge" →
          continue_process_stream (p :: rest) = some (some Handler.merge_warped, 200))
        ∧ (p.action = pystr "blend" →
          continue_process_stream (p :: rest) = some (some Handler.blend, 200))
        ∧ (p.action = pystr "publish" →
          continue_process_stream (p :: rest) = some (some Handler.publishItem, 200))
        ∧ (p.action ∉ [pystr "merge", pystr "blend", pystr "publish"] →
          continue_process_stream (p :: rest) = some (none, 200))) := by
  constructor
  · intro hch
    simp [continue_process_stream, hch]
  · intro hch
    have hbeq : (p.channel == some (pystr "kinesis")) = false := by
      simpa using hch
    refine ⟨?_, ?_, ?_, ?_⟩
    · intro ha
      have h1 : (p.action == pystr "merge") = true := by rw [ha]; exact beq_self_eq_true _
      simp [continue_process_stream, hbeq, h1]
    · intro ha
      have h1 : (p.action == pystr "merge") = false := by rw [ha]; decide
      have h2 : (p.action == pystr "blend") = true := by rw [ha]; exact beq_self_eq_true _
      simp [continue_process_stream, hbeq, h1, h2]
    · intro ha
      have h1 : (p.action == pystr "merge") = false := by rw [ha]; decide
      have h2 : (p.action == pystr "blend") = false := by rw [ha]; decide
      have h3 : (p.action == pystr "publish") = true := by rw [ha]; exact beq_self_eq_true _
      simp [continue_process_stream, hbeq, h1, h2, h3]
    · intro ha
      simp only [List.mem_cons, List.mem_singleton, not_or] at ha
      obtain ⟨h1, h2, h3⟩ := ha
      have b1 : (p.action == pystr "merge") = false := by simpa using h1
      have b2 : (p.action == pystr "blend") = false := by simpa using h2
      have b3 : (p.action == pystr "publish") = false := by simpa using h3
      simp [continue_process_stream, hbeq, b1, b2, b3]

/-- Witness for the amended C3: a kinesis-channel payload is dispatched to
solo. -/
theorem C3_witness :
    continue_process_stream [⟨some (pystr "kinesis"), pystr "merge"⟩] =
      some (some Handler.solo, 200) :=
  (C3_dispatch ⟨some (pystr "kinesis"), pystr "merge"⟩ []).1 rfl

/-! ## Claim C4 -/

/-- Claim C4: for every cube id in one of the canonical segment counts
(2, 3 or 4), the irregular-cube key of `get_cube_status`, the identity-cube
key of `get_cube_meta` and the merge-lookup key of `list_merges` all equal
the join of the first two underscore-separated segments of the id. -/
theorem C4_two_segment_keys (dc : PyStr)
    (h2 : 2 ≤ (get_cube_parts dc).length)
    (h4 : (get_cube_parts dc).length ≤ 4) :
    irregular_cube_of dc = join_underscore ((get_cube_parts dc).take 2) ∧
    identity_cube_of dc = join_underscore ((get_cube_parts dc).take 2) ∧
    list_merges_data_cube dc = join_underscore ((get_cube_parts dc).take 2) := by
  refine ⟨rfl, rfl, ?_⟩
  have hlen : (get_cube_parts dc).length = 2 ∨ (get_cube_parts dc).length = 3 ∨
      (get_cube_parts dc).length = 4 := by omega
  unfold list_merges_data_cube
  rcases hlen with hl | hl | hl
  · rw [if_neg (by omega), if_neg (by omega)]
    rw [List.take_of_length_le (by omega)]
    exact (join_split_underscore dc).symm
  · rw [if_neg (by omega), if_pos hl, List.dropLast_eq_take, hl]
  · have hdd : (get_cube_parts dc).dropLast.dropLast =
        (get_cube_parts dc).take 2 := by
      rw [List.dropLast_eq_take, List.dropLast_eq_take, List.length_take,
        List.take_take, hl]
      norm_num
    rw [if_pos hl, hdd]

/-- Witness for C4 at the canonical composite id `mc_10_1M_STK`. -/
theorem C4_witness :
    irregular_cube_of (pystr "mc_10_1M_STK") =
      join_underscore ((get_cube_parts (pystr "mc_10_1M_STK")).take 2) ∧
    identity_cube_of (pystr "mc_10_1M_STK") =
      join_underscore ((get_cube_parts (pystr "mc_10_1M_STK")).take 2) ∧
    list_merges_data_cube (pystr "mc_10_1M_STK") =
      join_underscore ((get_cube_parts (pystr "mc_10_1M_STK")).take 2) :=
  C4_two_segment_keys (pystr "mc_10_1M_STK") (by decide) (by decide)

/-! ## Claim C8 -/

/-- A finished activity over `[10, 20]`, launched later (processed first by
the descending sort). -/
def c8ActLate : Activity := ⟨pystr "DONE", 10, 20⟩

/-- A finished activity over `[0, 10]`, merely touching the other interval
at its endpoint. -/
def c8ActEarly : Activity := ⟨pystr "DONE", 0, 10⟩

/-- A ledger answering every cube name with the two finished activities. -/
def c8Ledger : LedgerView := ⟨fun _ => [c8ActLate, c8ActEarly], fun _ => 0⟩

/-- Claim C8: there is a finished activity set in which an activity that
overlaps no previously processed interval contributes 0 seconds — the
earlier activity adds nothing to the accumulated `time` — so the reported
duration (10 s) is strictly less than the true union of busy time (20 s),
and the status endpoint reports that undercounted duration. -/
theorem C8_duration_undercount :
    ¬ intervals_overlap c8ActEarly c8ActLate ∧
    status_time [c8ActLate, c8ActEarly] = status_time [c8ActLate] ∧
    status_time [c8ActLate, c8ActEarly] <
      (union_busy_seconds [c8ActLate, c8ActEarly] : Int) ∧
    get_cube_status c8Ledger (pystr "mc_10") =
      some (.finished 0 20 2 "0 h 0 m 10 s" 0) := by
  decide

/-! ## Structural lemmas about `get_cube_status` -/

theorem countStatus_append (a b : List Activity) (st : PyStr) :
    countStatus (a ++ b) st = countStatus a st + countStatus b st := by
  simp [countStatus, List.filter_append]

theorem length_insertDesc (l : List Activity) (a : Activity) :
    (insertDesc l a).length = l.length + 1 := by
  induction l with
  | nil => rfl
  | cons b bs ih =>
    simp only [insertDesc]
    split
    · simp [ih]
    · simp

theorem length_foldl_insertDesc (l : List Activity) (acc : List Activity) :
    (l.foldl insertDesc acc).length = acc.length + l.length := by
  induction l generalizing acc with
  | nil => simp
  | cons a as ih =>
    simp only [List.foldl_cons, ih, length_insertDesc, List.length_cons]
    omega

theorem length_sortByLaunchDesc (l : List Activity) :
    (sortByLaunchDesc l).length = l.length := by
  simp [sortByLaunchDesc, length_foldl_insertDesc]

theorem get_cube_status_eq (svc : LedgerView) (dc : PyStr) :
    get_cube_status svc dc =
      (let acts := status_acts svc dc
       let nd := countStatus acts (pystr "NOTDONE")
       let er := countStatus acts (pystr "ERROR")
       if nd + er ≠ 0 then
         some (.unfinished (acts.length - (nd + er)) nd er)
       else
         match (sortByLaunchDesc acts).getLast?, (sortByLaunchDesc acts).head? with
         | some lastAct, some firstAct =>
           some (.finished lastAct.mylaunch firstAct.myend acts.length
             (duration_str (status_time (sortByLaunchDesc acts)))
             (svc.collectionItems dc))
         | _, _ => none) := by
  simp only [get_cube_status, status_acts]
  by_cases hirr : (get_cube_parts dc).length > 2
  · simp [hirr, countStatus_append]
  · simp [hirr, countStatus_append, countStatus]

theorem get_cube_status_unfinished (svc : LedgerView) (dc : PyStr)
    (h : countStatus (status_acts svc dc) (pystr "NOTDONE") +
      countStatus (status_acts svc dc) (pystr "ERROR") ≠ 0) :
    get_cube_status svc dc = some (.unfinished
      ((status_acts svc dc).length -
        (countStatus (status_acts svc dc) (pystr "NOTDONE") +
          countStatus (status_acts svc dc) (pystr "ERROR")))
      (countStatus (status_acts svc dc) (pystr "NOTDONE"))
      (countStatus (status_acts svc dc) (pystr "ERROR"))) := by
  rw [get_cube_status_eq]
  simp only
  rw [if_pos h]

theorem get_cube_status_finished (svc : LedgerView) (dc : PyStr)
    (h : countStatus (status_acts svc dc) (pystr "NOTDONE") +
      countStatus (status_acts svc dc) (pystr "ERROR") = 0)
    (hne : status_acts svc dc ≠ []) :
    ∃ s l dur ci, get_cube_status svc dc =
      some (.finished s l (status_acts svc dc).length dur ci) := by
  rw [get_cube_status_eq]
  simp only
  rw [if_neg (by omega)]
  have hsne : sortByLaunchDesc (status_acts svc dc) ≠ [] := by
    intro hh
    apply hne
    have hl := length_sortByLaunchDesc (status_acts svc dc)
    rw [hh] at hl
    exact List.eq_nil_of_length_eq_zero hl.symm
  obtain ⟨la, hla⟩ : ∃ a, (sortByLaunchDesc (status_acts svc dc)).getLast? = some a := by
    cases hgl : (sortByLaunchDesc (status_acts svc dc)).getLast? with
    | none => exact absurd (List.getLast?_eq_none_iff.mp hgl) hsne
    | some a => exact ⟨a, rfl⟩
  obtain ⟨fa, hfa⟩ : ∃ a, (sortByLaunchDesc (status_acts svc dc)).head? = some a := by
    cases hhd : (sortByLaunchDesc (status_acts svc dc)).head? with
    | none => exact absurd (List.head?_eq_none_iff.mp hhd) hsne
    | some a => exact ⟨a, rfl⟩
  rw [hla, hfa]
  exact ⟨la.mylaunch, fa.myend, _, _, rfl⟩

theorem get_cube_status_empty (svc : LedgerView) (dc : PyStr)
    (h : countStatus (status_acts svc dc) (pystr "NOTDONE") +
      countStatus (status_acts svc dc) (pystr "ERROR") = 0)
    (he : status_acts svc dc = []) :
    get_cube_status svc dc = none := by
  rw [get_cube_status_eq]
  simp only
  rw [if_neg (by omega), he]
  rfl

theorem countStatus_filter_split (acts : List Activity) :
    ((acts.filter (fun a => decide (a.mystatus ≠ pystr "NOTDONE" ∧
        a.mystatus ≠ pystr "ERROR"))).length +
      (countStatus acts (pystr "NOTDONE") + countStatus acts (pystr "ERROR")))
      = acts.length := by
  show (acts.filter _).length + ((acts.filter _).length + (acts.filter _).length)
    = acts.length
  rw [← List.countP_eq_length_filter, ← List.countP_eq_length_filter,
    ← List.countP_eq_length_filter]
  induction acts with
  | nil => rfl
  | cons a t ih =>
    simp only [List.length_cons]
    by_cases h1 : a.mystatus = pystr "NOTDONE"
    · rw [List.countP_cons_of_neg _ _ (by simp [h1]),
        List.countP_cons_of_pos _ _ (by rw [h1]; exact beq_self_eq_true _),
        List.countP_cons_of_neg _ _ (by rw [h1]; decide)]
      omega
    · by_cases h2 : a.mystatus = pystr "ERROR"
      · rw [List.countP_cons_of_neg _ _ (by simp [h1, h2]),
          List.countP_cons_of_neg _ _ (by rw [h2]; decide),
          List.countP_cons_of_pos _ _ (by rw [h2]; exact beq_self_eq_true _)]
        omega
      · rw [List.countP_cons_of_pos _ _ (by simp [h1, h2]),
          List.countP_cons_of_neg _ _ (by simpa using h1),
          List.countP_cons_of_neg _ _ (by simpa using h2)]
        omega

/-! ## Claim C1 -/

/-- A ledger with no activities at all. -/
def c1EmptyLedger : LedgerView := ⟨fun _ => [], fun _ => 0⟩

/-- Counterexample to claim C1: for a datacube with no recorded activities
the NOTDONE/ERROR sum is zero, yet `get_cube_status` returns no finished
response — the Python code raises an `IndexError` on `acts[-1]`. -/
theorem C1_counterexample :
    countStatus (status_acts c1EmptyLedger (pystr "mc_10")) (pystr "NOTDONE") +
      countStatus (status_acts c1EmptyLedger (pystr "mc_10")) (pystr "ERROR") = 0 ∧
    get_cube_status c1EmptyLedger (pystr "mc_10") = none := by
  decide

/-- Claim C1 as amended: whenever `not_done + error` over the consulted
activities is non-zero, `get_cube_status` answers the unfinished dictionary
with `done = total - (not_done + error)`; whenever it is zero **and at least
one activity exists**, it answers the finished dictionary (with `done` the
total activity count); with no activities it raises instead of answering. -/
theorem C1_status_characterization (svc : LedgerView) (dc : PyStr) :
    (countStatus (status_acts svc dc) (pystr "NOTDONE") +
        countStatus (status_acts svc dc) (pystr "ERROR") ≠ 0 →
      get_cube_status svc dc = some (.unfinished
        ((status_acts svc dc).length -
          (countStatus (status_acts svc dc) (pystr "NOTDONE") +
            countStatus (status_acts svc dc) (pystr "ERROR")))
        (countStatus (status_acts svc dc) (pystr "NOTDONE"))
        (countStatus (status_acts svc dc) (pystr "ERROR"))))
    ∧ (countStatus (status_acts svc dc) (pystr "NOTDONE") +
        countStatus (status_acts svc dc) (pystr "ERROR") = 0 →
      status_acts svc dc ≠ [] →
      ∃ s l dur ci, get_cube_status svc dc =
        some (.finished s l (status_acts svc dc).length dur ci)) :=
  ⟨get_cube_status_unfinished svc dc, get_cube_status_finished svc dc⟩

/-- A ledger with one `NOTDONE` activity. -/
def c1PendingLedger : LedgerView := ⟨fun _ => [⟨pystr "NOTDONE", 0, 5⟩], fun _ => 3⟩

/-- A ledger with one `DONE` activity. -/
def c1DoneLedger : LedgerView := ⟨fun _ => [⟨pystr "DONE", 0, 5⟩], fun _ => 3⟩

/-- Witness for the amended C1 on two one-activity ledgers. -/
theorem C1_witness :
    get_cube_status c1PendingLedger (pystr "mc_10") = some (.unfinished 0 1 0) ∧
    ∃ s l dur ci, get_cube_status c1DoneLedger (pystr "mc_10") =
      some (.finished s l 1 dur ci) :=
  ⟨((C1_status_characterization c1PendingLedger (pystr "mc_10")).1
      (by decide)).trans (by decide),
   (C1_status_characterization c1DoneLedger (pystr "mc_10")).2
      (by decide) (by decide)⟩

/-! ## Claim C10 -/

/-- Claim C10: activities in status `DOING` are never counted as unfinished:
if every activity avoids `NOTDONE` and `ERROR` (e.g. all still `DOING`) the
endpoint reports `finished: true`, and in the unfinished response the `done`
count equals the number of activities whose status is neither `NOTDONE` nor
`ERROR` — `DOING` included. -/
theorem C10_doing_counts_as_done (svc : LedgerView) (dc : PyStr)
    (hdoing : ∃ a ∈ status_acts svc dc, a.mystatus = pystr "DOING") :
    ((∀ a ∈ status_acts svc dc,
        a.mystatus ≠ pystr "NOTDONE" ∧ a.mystatus ≠ pystr "ERROR") →
      ∃ s l dur ci, get_cube_status svc dc =
        some (.finished s l (status_acts svc dc).length dur ci))
    ∧ (∀ d nd er, get_cube_status svc dc = some (.unfinished d nd er) →
      d = ((status_acts svc dc).filter
        (fun a => decide (a.mystatus ≠ pystr "NOTDONE" ∧
          a.mystatus ≠ pystr "ERROR"))).length) := by
  constructor
  · intro hall
    have hnd : countStatus (status_acts svc dc) (pystr "NOTDONE") = 0 := by
      simp only [countStatus, List.length_eq_zero, List.filter_eq_nil_iff]
      intro a ha
      simpa using (hall a ha).1
    have her : countStatus (status_acts svc dc) (pystr "ERROR") = 0 := by
      simp only [countStatus, List.length_eq_zero, List.filter_eq_nil_iff]
      intro a ha
      simpa using (hall a ha).2
    have hne : status_acts svc dc ≠ [] := by
      obtain ⟨a, ha, _⟩ := hdoing
      exact List.ne_nil_of_mem ha
    exact get_cube_status_finished svc dc (by omega) hne
  · intro d nd er heq
    by_cases hz : countStatus (status_acts svc dc) (pystr "NOTDONE") +
        countStatus (status_acts svc dc) (pystr "ERROR") = 0
    · by_cases hnil : status_acts svc dc = []
      · rw [get_cube_status_empty svc dc hz hnil] at heq
        exact absurd heq (by simp)
      · obtain ⟨s, l, dur, ci, hfin⟩ := get_cube_status_finished svc dc hz hnil
        rw [hfin] at heq
        exact absurd (Option.some.inj heq) (by simp)
    · have hunf := get_cube_status_unfinished svc dc hz
      rw [hunf] at heq
      obtain ⟨hd, -, -⟩ := StatusResult.unfinished.inj (Option.some.inj heq).symm
      have hsplit := countStatus_filter_split (status_acts svc dc)
      omega

/-- A ledger whose only activity is `DOING`. -/
def c10DoingLedger : LedgerView := ⟨fun _ => [⟨pystr "DOING", 0, 5⟩], fun _ => 0⟩

/-- A ledger with one `DOING` and one `NOTDONE` activity. -/
def c10MixedLedger : LedgerView :=
  ⟨fun _ => [⟨pystr "DOING", 0, 5⟩, ⟨pystr "NOTDONE", 0, 0⟩], fun _ => 0⟩

/-- Witness for C10: an all-`DOING` ledger reports finished, and in the mixed
ledger's unfinished reply the `DOING` activity is counted in `done`. -/
theorem C10_witness :
    (∃ s l dur ci, get_cube_status c10DoingLedger (pystr "mc_10") =
      some (.finished s l 1 dur ci)) ∧
    (1 : Nat) = ((status_acts c10MixedLedger (pystr "mc_10")).filter
      (fun a => decide (a.mystatus ≠ pystr "NOTDONE" ∧
        a.mystatus ≠ pystr "ERROR"))).length :=
  ⟨(C10_doing_counts_as_done c10DoingLedger (pystr "mc_10") (by decide)).1
      (by decide),
   (C10_doing_counts_as_done c10MixedLedger (pystr "mc_10") (by decide)).2
      1 1 0 (by decide)⟩

/-! ## Claim C9 -/

/-- Claim C9: whenever `create_cube` creates at least one new cube and
`params['bands']` is non-empty, the bands loop reads the never-assigned name
`indice` on its first iteration, so the call raises (an
`UnboundLocalError`) and no `Band` rows are saved — none is ever built from
the band names themselves. -/
theorem C9_bands_loop_unbound_indice (cubesDb : List CollectionRow)
    (params : CreateParams)
    (hcubes : build_cubes cubesDb params ≠ [])
    (hbands : params.bands ≠ []) :
    (create_cube cubesDb params).2 = .error (.unboundLocal "indice") := by
  unfold create_cube
  simp only
  match hc : build_cubes cubesDb params with
  | [] => exact absurd hc hcubes
  | c :: rest =>
    match hb : params.bands with
    | [] => exact absurd hb hbands
    | b :: bs =>
      simp [all_bands_loop, hb, bands_loop, Bind.bind, Except.bind]

/-- A request creating one `MED` cube with a non-empty band list. -/
def c9Params : CreateParams :=
  ⟨pystr "mc_10_1M", [pystr "MED"], pystr "g", 10, pystr "M1month",
    pystr "d", pystr "MIT", none, [pystr "B1"], [pystr "B1"],
    [⟨pystr "NDVI", pystr "int16", pystr "nd"⟩]⟩

/-- Witness for C9 on the sample request. -/
theorem C9_witness :
    (create_cube [] c9Params).2 = .error (.unboundLocal "indice") :=
  C9_bands_loop_unbound_indice [] c9Params (by decide) (by decide)

/-! ## Lemmas about `create_cube` for claim C5 -/

theorem build_cubes_go_temporal (cubesDb : List CollectionRow)
    (params : CreateParams) (cfs : List PyStr) (acc : List CollectionRow)
    (hacc : ∀ c ∈ acc, c.temporal_composition_schema_id =
      (if upperChars c.composite_function_schema_id ≠ pystr "IDENTITY" then
        params.temporal_schema else pystr "Anull")) :
    ∀ c ∈ cfs.foldl (build_cubes_step cubesDb params) acc,
      c.temporal_composition_schema_id =
        (if upperChars c.composite_function_schema_id ≠ pystr "IDENTITY" then
          params.temporal_schema else pystr "Anull") := by
  induction cfs generalizing acc with
  | nil => simpa using hacc
  | cons cf rest ih =>
    simp only [List.foldl_cons]
    apply ih
    intro c hc
    unfold build_cubes_step at hc
    simp only at hc
    split at hc
    · rcases List.mem_append.mp hc with hin | hnew
      · exact hacc c hin
      · rcases List.mem_singleton.mp hnew with rfl
        rfl
    · exact hacc c hc

theorem build_cubes_temporal (cubesDb : List CollectionRow)
    (params : CreateParams) :
    ∀ c ∈ build_cubes cubesDb params,
      c.temporal_composition_schema_id =
        (if upperChars c.composite_function_schema_id ≠ pystr "IDENTITY" then
          params.temporal_schema else pystr "Anull") :=
  build_cubes_go_temporal cubesDb params params.composite_function []
    (by intro c hc; simp at hc)

theorem build_cubes_go_nodup (cubesDb : List CollectionRow)
    (params : CreateParams) (cfs : List PyStr) (acc : List CollectionRow)
    (hacc : acc.Pairwise (fun a b => a.id ≠ b.id)) :
    (cfs.foldl (build_cubes_step cubesDb params) acc).Pairwise
      (fun a b => a.id ≠ b.id) := by
  induction cfs generalizing acc with
  | nil => simpa using hacc
  | cons cf rest ih =>
    simp only [List.foldl_cons]
    apply ih
    unfold build_cubes_step
    simp only
    split
    · rename_i hcond
      rw [List.pairwise_append]
      refine ⟨hacc, List.pairwise_singleton _ _, ?_⟩
      intro a ha b hb
      rcases List.mem_singleton.mp hb with rfl
      have hflt := hcond.1
      rw [List.isEmpty_iff, List.filter_eq_nil_iff] at hflt
      have := hflt a ha
      simpa using this
    · exact hacc

theorem build_cubes_nodup (cubesDb : List CollectionRow)
    (params : CreateParams) :
    (build_cubes cubesDb params).Pairwise (fun a b => a.id ≠ b.id) :=
  build_cubes_go_nodup cubesDb params params.composite_function []
    List.Pairwise.nil

theorem pairwise_id_unique {l : List CollectionRow}
    (hp : l.Pairwise (fun a b => a.id ≠ b.id)) {c c' : CollectionRow}
    (hc : c ∈ l) (hc' : c' ∈ l) (hid : c.id = c'.id) : c = c' := by
  induction l with
  | nil => cases hc
  | cons x xs ih =>
    rcases List.pairwise_cons.mp hp with ⟨hx, hxs⟩
    rcases List.mem_cons.mp hc with h1 | h1
    · rcases List.mem_cons.mp hc' with h2 | h2
      · rw [h1, h2]
      · subst h1
        exact absurd hid (hx c' h2)
    · rcases List.mem_cons.mp hc' with h2 | h2
      · subst h2
        exact absurd hid.symm (hx c h1)
      · exact ih hxs h1 h2

theorem indices_loop_rows_st (cube : CollectionRow) (res : Nat)
    (inds : List Indice) :
    ∀ st st', (indices_loop cube res inds st).1 =
      (indices_loop cube res inds st').1 := by
  induction inds with
  | nil => intro st st'; rfl
  | cons ind rest ih =>
    intro st st'
    rfl

theorem mem_indices_loop (cube : CollectionRow) (res : Nat) :
    ∀ (inds : List Indice) (st : Option Indice) (b : BandRow),
      b ∈ (indices_loop cube res inds st).1 ↔
      ∃ ind ∈ inds,
        ¬((cube.composite_function_schema_id == pystr "IDENTITY") ∧
          ((pyStrip ind.name == pystr "CLEAROB") ∨
            (pyStrip ind.name == pystr "TOTALOB"))) ∧
        b = bandRowFromIndice { ind with name := pyStrip ind.name } cube.id res := by
  intro inds
  induction inds with
  | nil => intro st b; simp [indices_loop]
  | cons ind rest ih =>
    intro st b
    unfold indices_loop
    simp only
    split
    · rename_i hguard
      rw [ih]
      constructor
      · rintro ⟨i, hi, hni, hb⟩
        exact ⟨i, List.mem_cons_of_mem _ hi, hni, hb⟩
      · rintro ⟨i, hi, hni, hb⟩
        rcases List.mem_cons.mp hi with rfl | hi
        · exact absurd hguard hni
        · exact ⟨i, hi, hni, hb⟩
    · rename_i hguard
      constructor
      · intro hb
        rcases List.mem_cons.mp hb with hb | hb
        · exact ⟨ind, List.mem_cons_self _ _, hguard, hb⟩
        · rw [ih] at hb
          obtain ⟨i, hi, hni, hbi⟩ := hb
          exact ⟨i, List.mem_cons_of_mem _ hi, hni, hbi⟩
      · rintro ⟨i, hi, hni, hb⟩
        rcases List.mem_cons.mp hi with h2 | h2
        · subst h2
          rw [hb]
          exact List.mem_cons_self _ _
        · exact List.mem_cons_of_mem _ ((ih _ b).mpr ⟨i, h2, hni, hb⟩)

theorem bands_nil_of_ok (params : CreateParams) (c : CollectionRow)
    (rest : List CollectionRow) (bs : List BandRow)
    (hok : all_bands_loop params (c :: rest) none = .ok bs) :
    params.bands = [] := by
  cases hb : params.bands with
  | nil => rfl
  | cons b btl =>
    exfalso
    unfold all_bands_loop at hok
    rw [hb] at hok
    simp [bands_loop, Bind.bind, Except.bind] at hok

theorem mem_all_bands_loop (params : CreateParams) (hb : params.bands = []) :
    ∀ (cubes : List CollectionRow) (st : Option Indice) (bs : List BandRow),
      all_bands_loop params cubes st = .ok bs →
      ∀ b : BandRow, (b ∈ bs ↔ ∃ cube ∈ cubes,
        b ∈ (indices_loop cube params.resolution params.indices none).1) := by
  intro cubes
  induction cubes with
  | nil =>
    intro st bs hok b
    unfold all_bands_loop at hok
    cases hok
    simp
  | cons c rest ih =>
    intro st bs hok b
    unfold all_bands_loop at hok
    rw [hb] at hok
    simp only [bands_loop, Bind.bind, Except.bind] at hok
    cases hrec : all_bands_loop params rest
        ((indices_loop c params.resolution params.indices st).2) with
    | error e =>
      rw [hrec] at hok
      cases hok
    | ok tailBs =>
      rw [hrec] at hok
      simp only [List.nil_append] at hok
      cases hok
      have hrows := indices_loop_rows_st c params.resolution params.indices st none
      constructor
      · intro hmem
        rcases List.mem_append.mp hmem with hl | hr
        · rw [hrows] at hl
          exact ⟨c, List.mem_cons_self _ _, hl⟩
        · obtain ⟨cube, hcube, hrow⟩ := (ih _ tailBs hrec b).mp hr
          exact ⟨cube, List.mem_cons_of_mem _ hcube, hrow⟩
      · rintro ⟨cube, hcube, hrow⟩
        rcases List.mem_cons.mp hcube with h2 | h2
        · subst h2
          apply List.mem_append.mpr
          left
          rw [hrows]
          exact hrow
        · exact List.mem_append.mpr (Or.inr
            ((ih _ tailBs hrec b).mpr ⟨cube, h2, hrow⟩))

/-! ## Claim C5 -/

/-- Claim C5: among the cubes a successful `create_cube` call saves, an
`IDENTITY` cube is bound to the sentinel temporal schema `'Anull'` and gets
no `CLEAROB`/`TOTALOB` band rows, while a non-`IDENTITY` cube is bound to the
requested temporal schema and receives a band row for each requested
`CLEAROB`/`TOTALOB` index. -/
theorem C5_identity_temporal_and_bands (cubesDb : List CollectionRow)
    (params : CreateParams) (cubes : List CollectionRow) (bands : List BandRow)
    (cube : CollectionRow)
    (hrun : create_cube cubesDb params = (cubes, .ok bands))
    (hmem : cube ∈ cubes) :
    (cube.composite_function_schema_id = pystr "IDENTITY" →
      cube.temporal_composition_schema_id = pystr "Anull" ∧
      ∀ b ∈ bands, b.collection_id = cube.id →
        b.name ≠ pystr "CLEAROB" ∧ b.name ≠ pystr "TOTALOB")
    ∧ (upperChars cube.composite_function_schema_id ≠ pystr "IDENTITY" →
      cube.temporal_composition_schema_id = params.temporal_schema ∧
      ∀ ind ∈ params.indices,
        (pyStrip ind.name = pystr "CLEAROB" ∨
          pyStrip ind.name = pystr "TOTALOB") →
        ∃ b ∈ bands, b.collection_id = cube.id ∧ b.name = pyStrip ind.name) := by
  have hcubes : cubes = build_cubes cubesDb params := by
    have h := congrArg Prod.fst hrun
    simpa [create_cube] using h.symm
  have hbandsrun : all_bands_loop params (build_cubes cubesDb params) none =
      .ok bands := by
    have h := congrArg Prod.snd hrun
    simpa [create_cube] using h
  subst hcubes
  obtain ⟨c0, rest0, hsplit⟩ :
      ∃ c0 rest0, build_cubes cubesDb params = c0 :: rest0 := by
    cases hc : build_cubes cubesDb params with
    | nil =>
      rw [hc] at hmem
      cases hmem
    | cons a l => exact ⟨a, l, rfl⟩
  have hbnil : params.bands = [] := by
    apply bands_nil_of_ok params c0 rest0 bands
    rw [← hsplit]
    exact hbandsrun
  have hmemiff := mem_all_bands_loop params hbnil
    (build_cubes cubesDb params) none bands hbandsrun
  have htemp := build_cubes_temporal cubesDb params cube hmem
  have hnodup := build_cubes_nodup cubesDb params
  constructor
  · intro hid
    constructor
    · rw [htemp, hid]
      rw [if_neg (by decide)]
    · intro b hbmem hcid
      obtain ⟨cube', hcube', hrow⟩ := (hmemiff b).mp hbmem
      rw [mem_indices_loop] at hrow
      obtain ⟨ind, hind, hguard, hbeq⟩ := hrow
      have hbname : b.name = pyStrip ind.name := by rw [hbeq]; rfl
      have hbcoll : b.collection_id = cube'.id := by rw [hbeq]; rfl
      have hcc : cube' = cube :=
        pairwise_id_unique hnodup hcube' hmem (by rw [← hbcoll, hcid])
      constructor
      · intro hn
        apply hguard
        refine ⟨?_, Or.inl ?_⟩
        · rw [hcc, hid]
          exact beq_self_eq_true _
        · rw [← hbname, hn]
          exact beq_self_eq_true _
      · intro hn
        apply hguard
        refine ⟨?_, Or.inr ?_⟩
        · rw [hcc, hid]
          exact beq_self_eq_true _
        · rw [← hbname, hn]
          exact beq_self_eq_true _
  · intro hnid
    constructor
    · rw [htemp, if_pos hnid]
    · intro ind hind hname
      have hcomp : cube.composite_function_schema_id ≠ pystr "IDENTITY" := by
        intro hh
        apply hnid
        rw [hh]
        decide
      refine ⟨bandRowFromIndice { ind with name := pyStrip ind.name }
        cube.id params.resolution, ?_, rfl, rfl⟩
      apply (hmemiff _).mpr
      refine ⟨cube, hmem, ?_⟩
      rw [mem_indices_loop]
      refine ⟨ind, hind, ?_, rfl⟩
      rintro ⟨g1, -⟩
      exact hcomp (eq_of_beq g1)

/-- A request creating an `IDENTITY` and a `MED` cube with no plain bands
and three indices (`CLEAROB`, `TOTALOB`, `NDVI`). -/
def c5Params : CreateParams :=
  ⟨pystr "mc_10_1M", [pystr "IDENTITY", pystr "MED"], pystr "g", 10,
    pystr "M1month", pystr "d", pystr "MIT", none, [pystr "B1"], [],
    [⟨pystr " CLEAROB ", pystr "uint8", pystr "co"⟩,
      ⟨pystr "TOTALOB", pystr "uint8", pystr "to"⟩,
      ⟨pystr "NDVI", pystr "int16", pystr "nd"⟩]⟩

/-- The `IDENTITY` cube row created from `c5Params`. -/
def c5IdCube : CollectionRow :=
  ⟨pystr "mc_10", pystr "Anull", pystr "g-10", pystr "IDENTITY",
    pystr "g", pystr "B1"⟩

/-- The `MED` cube row created from `c5Params`. -/
def c5MedCube : CollectionRow :=
  ⟨pystr "mc_10_1M_MED", pystr "M1month", pystr "g-10", pystr "MED",
    pystr "g", pystr "B1"⟩

/-- The band rows created from `c5Params`. -/
def c5OkBands : List BandRow :=
  [⟨pystr "NDVI", pystr "mc_10", 0, 10000, -9999, pystr "int16",
      pystr "nd", 10, 10⟩,
   ⟨pystr "CLEAROB", pystr "mc_10_1M_MED", 0, 255, 0, pystr "uint8",
      pystr "co", 10, 10⟩,
   ⟨pystr "TOTALOB", pystr "mc_10_1M_MED", 0, 255, 0, pystr "uint8",
      pystr "to", 10, 10⟩,
   ⟨pystr "NDVI", pystr "mc_10_1M_MED", 0, 10000, -9999, pystr "int16",
      pystr "nd", 10, 10⟩]

/-- Witness for C5: on the sample request the `IDENTITY` cube is bound to
`Anull` with no observation bands, the `MED` cube to the requested schema
with both observation bands present. -/
theorem C5_witness :
    (c5IdCube.temporal_composition_schema_id = pystr "Anull" ∧
      ∀ b ∈ c5OkBands, b.collection_id = c5IdCube.id →
        b.name ≠ pystr "CLEAROB" ∧ b.name ≠ pystr "TOTALOB") ∧
    (c5MedCube.temporal_composition_schema_id = c5Params.temporal_schema ∧
      ∀ ind ∈ c5Params.indices,
        (pyStrip ind.name = pystr "CLEAROB" ∨
          pyStrip ind.name = pystr "TOTALOB") →
        ∃ b ∈ c5OkBands, b.collection_id = c5MedCube.id ∧
          b.name = pyStrip ind.name) :=
  ⟨(C5_identity_temporal_and_bands [] c5Params [c5IdCube, c5MedCube]
      c5OkBands c5IdCube rfl (by decide)).1 (by decide),
   (C5_identity_temporal_and_bands [] c5Params [c5IdCube, c5MedCube]
      c5OkBands c5MedCube rfl (by decide)).2 (by decide)⟩
